import Mathlib

/-!
# Verification of the light-sensor application layer (`app.c`)

A shallow embedding of the application module of the light-sensor firmware:
the timer-configuration builder `app_letimer_pwm_open`, the startup sequence
`app_peripheral_setup`, and the four scheduled callbacks
(`scheduled_letimer0_uf_cb`, `scheduled_letimer0_comp0_cb`,
`scheduled_letimer0_comp1_cb`, `scheduled_si1133_read_cb`).

The sensor driver (`si1133_*`), the LED driver (`leds_enabled`, `rgb_init`)
and the Sleep/Power Gate live outside this repository's sources; they are
modelled from the specification (transaction state machine
IDLE → COMMAND_SENT → AWAITING_RESULT → RESULT_READY, sleep-gate
increment in the read trigger and decrement in the result take).

Fallible driver operations (those whose precondition violation is a fatal
assertion) return `Option`: `none` is the fatal-assert path.
-/

namespace LightSensor

/-- The three colour channels of an RGB LED (`COLOR_RED`, `COLOR_GREEN`,
`COLOR_BLUE` in the firmware). -/
inductive Color where
  | red
  | green
  | blue
deriving DecidableEq, Repr

/-- On/off state of the three colour channels of `RGB_LED_1`, the only LED
the application module ever addresses. -/
structure Leds where
  red : Bool
  green : Bool
  blue : Bool
deriving DecidableEq, Repr

/-- Modelled from the spec: `leds_enabled(RGB_LED_1, color, enable)` of the
LED driver sets the given colour channel of the indicator LED to `enable`,
leaving the other channels untouched.  Specialised to `RGB_LED_1`, the only
LED argument the application passes. -/
def leds_enabled (l : Leds) (c : Color) (enable : Bool) : Leds :=
  match c with
  | Color.red => { l with red := enable }
  | Color.green => { l with green := enable }
  | Color.blue => { l with blue := enable }

/-- Sensor transaction state of the asynchronous Si1133 read driver
(spec §4.3): `IDLE → COMMAND_SENT → AWAITING_RESULT → RESULT_READY`. -/
inductive TxState where
  | IDLE
  | COMMAND_SENT
  | AWAITING_RESULT
  | RESULT_READY
deriving DecidableEq, Repr

/-- Modelled from the spec: the Si1133 driver's private state — the
transaction state machine and the latched result register value. -/
structure Si1133 where
  tx : TxState
  result : Nat
deriving DecidableEq, Repr

/-- The state the application layer and its drivers act on: the
module-private colour-cycle variable `RGB_COLOR` (a C `int`), the indicator
LED channels, the Si1133 driver state, and the Sleep/Power Gate block
count (an integer so that non-negativity is a provable invariant, not a
typing artefact). -/
structure AppState where
  rgb_color : Int
  leds : Leds
  si : Si1133
  sleepBlocks : Int
deriving DecidableEq, Repr

/-- Modelled from the spec: `si1133_read_white_light` (the spec's
`begin_read()`): valid only in `IDLE`; increments the Sleep/Power Gate
before returning and starts the transaction (`IDLE → COMMAND_SENT`).
Calling it outside `IDLE` is a fatal assertion (`none`). -/
def si1133_read_white_light (s : AppState) : Option AppState :=
  if s.si.tx = TxState.IDLE then
    some { s with
            sleepBlocks := s.sleepBlocks + 1,
            si := { s.si with tx := TxState.COMMAND_SENT } }
  else
    none

/-- Modelled from the spec: `si1133_force_cmd` issues the
`FORCE_MEASUREMENT` command over the bus (no payload, no response),
advancing the transaction `COMMAND_SENT → AWAITING_RESULT`.  It touches
no application state, no LED, and not the Sleep/Power Gate. -/
def si1133_force_cmd (s : AppState) : Option AppState :=
  if s.si.tx = TxState.COMMAND_SENT then
    some { s with si := { s.si with tx := TxState.AWAITING_RESULT } }
  else
    none

/-- Modelled from the spec: on bus-read completion (driven by the bus
controller's interrupt, external to the core) the driver latches the
result register value and transitions to `RESULT_READY`. -/
def si1133_bus_complete (v : Nat) (s : AppState) : Option AppState :=
  if s.si.tx = TxState.AWAITING_RESULT then
    some { s with si := { tx := TxState.RESULT_READY, result := v } }
  else
    none

/-- Modelled from the spec: `si1133_read_result` (the spec's
`take_result()`): valid only in `RESULT_READY`; returns the latched value,
resets the transaction to `IDLE` and decrements the Sleep/Power Gate. -/
def si1133_read_result (s : AppState) : Option (Nat × AppState) :=
  if s.si.tx = TxState.RESULT_READY then
    some (s.si.result,
          { s with
              sleepBlocks := s.sleepBlocks - 1,
              si := { s.si with tx := TxState.IDLE } })
  else
    none

/-- Modelled from the spec: the fixed expected-reading threshold
`EXPECTED_READ_DATA` compiled into the system; the spec's concrete scenario
fixes it at 50. -/
def EXPECTED_READ_DATA : Nat := 50

/-- `scheduled_letimer0_uf_cb` of `app.c`: the underflow callback.  The
active code calls `si1133_read_white_light(SI1133_LIGHT_CB)` and nothing
else; the 3-colour cycling logic is commented out and therefore absent. -/
def scheduled_letimer0_uf_cb (s : AppState) : Option AppState :=
  si1133_read_white_light s

/-- `scheduled_letimer0_comp0_cb` of `app.c`: empty body (its assertion is
commented out), so it performs no action. -/
def scheduled_letimer0_comp0_cb (s : AppState) : Option AppState :=
  some s

/-- `scheduled_letimer0_comp1_cb` of `app.c`: the compare-match callback.
The active code calls `si1133_force_cmd()` and nothing else; the colour
display logic is commented out and therefore absent. -/
def scheduled_letimer0_comp1_cb (s : AppState) : Option AppState :=
  si1133_force_cmd s

/-- `scheduled_si1133_read_cb` of `app.c`: reads the latched result via
`si1133_read_result()` and enables the blue channel of `RGB_LED_1` when the
reading is strictly below `EXPECTED_READ_DATA`, disables it otherwise. -/
def scheduled_si1133_read_cb (s : AppState) : Option AppState :=
  match si1133_read_result s with
  | none => none
  | some (si1133_data, s1) =>
    if si1133_data < EXPECTED_READ_DATA then
      some { s1 with leds := leds_enabled s1.leds Color.blue true }
    else
      some { s1 with leds := leds_enabled s1.leds Color.blue false }

/-- Modelled from the spec: `rgb_init()` of the LED driver configures all
LEDs to their default-off state (`RGB_DEFAULT_OFF`/`COLOR_DEFAULT_OFF` are
`false` in `brd_config.h`); it does not touch `RGB_COLOR`. -/
def rgb_init (s : AppState) : AppState :=
  { s with leds := { red := false, green := false, blue := false } }

/-- `rgb_led_open` of `app.c`: sets `RGB_COLOR = 0`, then calls
`rgb_init()`. -/
def rgb_led_open (s : AppState) : AppState :=
  rgb_init { s with rgb_color := 0 }

/-- The events the dispatch loop (and the bus controller) can deliver to
the application layer: the three timer callbacks, the external bus-read
completion carrying the measured value, and the sensor-data-ready
callback. -/
inductive AppEvent where
  | uf
  | comp0
  | comp1
  | busComplete (v : Nat)
  | dataReady
deriving DecidableEq, Repr

/-- Dispatch one event to its handler. -/
def runEvent : AppEvent → AppState → Option AppState
  | AppEvent.uf => scheduled_letimer0_uf_cb
  | AppEvent.comp0 => scheduled_letimer0_comp0_cb
  | AppEvent.comp1 => scheduled_letimer0_comp1_cb
  | AppEvent.busComplete v => si1133_bus_complete v
  | AppEvent.dataReady => scheduled_si1133_read_cb

/-- Dispatch a sequence of events in order; `none` as soon as any handler
hits its fatal-assert path. -/
def runEvents : List AppEvent → AppState → Option AppState
  | [], s => some s
  | e :: es, s =>
    match runEvent e s with
    | none => none
    | some s1 => runEvents es s1

/-- One full sampling cycle, in the order the spec fixes (§8): underflow →
read trigger, compare-match → force command, bus completion latching the
reading `v`, then the data-ready comparison/actuation callback. -/
def runCycle (v : Nat) (s : AppState) : Option AppState :=
  runEvents [AppEvent.uf, AppEvent.comp1, AppEvent.busComplete v,
             AppEvent.dataReady] s

/-- The blue-indicator state observed after each cycle of a simulated
reading sequence. -/
def indicatorTrace : List Nat → AppState → Option (List Bool)
  | [], _ => some []
  | v :: vs, s =>
    match runCycle v s with
    | none => none
    | some s1 =>
      match indicatorTrace vs s1 with
      | none => none
      | some l => some (s1.leds.blue :: l)

/-- The application state right after `app_peripheral_setup`: `RGB_COLOR`
zeroed and LEDs off by `rgb_led_open`, sensor driver idle, Sleep/Power Gate
unblocked. -/
def initialAppState : AppState :=
  { rgb_color := 0,
    leds := { red := false, green := false, blue := false },
    si := { tx := TxState.IDLE, result := 0 },
    sleepBlocks := 0 }

/-- `APP_LETIMER_PWM_TypeDef`: the timer configuration record filled in by
`app_letimer_pwm_open` (periods are C `float`s; routes and callback
identifiers are `uint32_t`). -/
structure APP_LETIMER_PWM_TypeDef where
  active_period : Float
  debugRun : Bool
  enable : Bool
  out_pin_0_en : Bool
  out_pin_1_en : Bool
  out_pin_route0 : Nat
  out_pin_route1 : Nat
  period : Float
  comp0_cb : Nat
  comp0_irq_enable : Bool
  comp1_cb : Nat
  comp1_irq_enable : Bool
  uf_cb : Nat
  uf_irq_enable : Bool

/-- `app_letimer_pwm_open` of `app.c`: builds the
`APP_LETIMER_PWM_TypeDef` it hands to `letimer_pwm_open`, field by field
as the source assigns them. -/
def app_letimer_pwm_open (period act_period : Float)
    (out0_route out1_route comp0_cb comp1_cb underflow_cb : Nat) :
    APP_LETIMER_PWM_TypeDef :=
  { active_period := act_period,
    debugRun := false,
    enable := false,
    out_pin_0_en := false,
    out_pin_1_en := false,
    out_pin_route0 := out0_route,
    out_pin_route1 := out1_route,
    period := period,
    comp0_cb := comp0_cb,
    comp0_irq_enable := false,
    comp1_cb := comp1_cb,
    comp1_irq_enable := true,
    uf_cb := underflow_cb,
    uf_irq_enable := true }

/-- The driver calls `app_peripheral_setup` makes, in source order. -/
inductive SetupCall where
  | cmu_open
  | sleep_open
  | gpio_open
  | si1133_i2c_open
  | scheduler_open
  | rgb_led_open
  | letimer_pwm_open (cfg : APP_LETIMER_PWM_TypeDef)
  | letimer_start (enable : Bool)

/-- `true` exactly on the timer-configuration call. -/
def SetupCall.isPwmOpen : SetupCall → Bool
  | SetupCall.letimer_pwm_open _ => true
  | _ => false

/-- `true` exactly on the timer-start call. -/
def SetupCall.isStart : SetupCall → Bool
  | SetupCall.letimer_start _ => true
  | _ => false

/-- `app_peripheral_setup` of `app.c` as the ordered trace of driver calls
it makes, parameterised by the compile-time timing constants (`PWM_PER`,
`PWM_ACT_PER`) and the route/callback identifiers it forwards to
`app_letimer_pwm_open`. -/
def app_peripheral_setup_trace (per act : Float)
    (r0 r1 c0 c1 uf : Nat) : List SetupCall :=
  [SetupCall.cmu_open,
   SetupCall.sleep_open,
   SetupCall.gpio_open,
   SetupCall.si1133_i2c_open,
   SetupCall.scheduler_open,
   SetupCall.rgb_led_open,
   SetupCall.letimer_pwm_open (app_letimer_pwm_open per act r0 r1 c0 c1 uf),
   SetupCall.letimer_start true]

/-- Normal form of the data-ready callback: in `RESULT_READY` it takes the
result, returns the driver to `IDLE`, releases the sleep gate and drives
the blue channel by the strict threshold comparison; otherwise it is the
fatal-assert path. -/
theorem scheduled_si1133_read_cb_eq (s : AppState) :
    scheduled_si1133_read_cb s =
      if s.si.tx = TxState.RESULT_READY then
        some { s with
                sleepBlocks := s.sleepBlocks - 1,
                si := { s.si with tx := TxState.IDLE },
                leds := leds_enabled s.leds Color.blue
                  (decide (s.si.result < EXPECTED_READ_DATA)) }
      else none := by
  unfold scheduled_si1133_read_cb si1133_read_result
  by_cases hr : s.si.tx = TxState.RESULT_READY
  · rw [if_pos hr, if_pos hr]
    by_cases hlt : s.si.result < EXPECTED_READ_DATA
    · simp [hlt, leds_enabled]
    · simp [hlt, leds_enabled]
  · rw [if_neg hr, if_neg hr]

/-- Every `runEvent` step leaves the module-private `RGB_COLOR` variable
unchanged: the colour-cycling code that would mutate it is commented out. -/
theorem runEvent_rgb_color {e : AppEvent} {s s1 : AppState}
    (h : runEvent e s = some s1) : s1.rgb_color = s.rgb_color := by
  cases e with
  | uf =>
    simp only [runEvent, scheduled_letimer0_uf_cb,
      si1133_read_white_light] at h
    split at h
    · injection h with h
      subst h
      rfl
    · exact Option.noConfusion h
  | comp0 =>
    simp only [runEvent, scheduled_letimer0_comp0_cb] at h
    injection h with h
    subst h
    rfl
  | comp1 =>
    simp only [runEvent, scheduled_letimer0_comp1_cb, si1133_force_cmd] at h
    split at h
    · injection h with h
      subst h
      rfl
    · exact Option.noConfusion h
  | busComplete v =>
    simp only [runEvent, si1133_bus_complete] at h
    split at h
    · injection h with h
      subst h
      rfl
    · exact Option.noConfusion h
  | dataReady =>
    simp only [runEvent] at h
    rw [scheduled_si1133_read_cb_eq] at h
    split at h
    · injection h with h
      subst h
      rfl
    · exact Option.noConfusion h

/-- `runEvents` leaves `RGB_COLOR` unchanged over any event sequence. -/
theorem runEvents_rgb_color : ∀ {es : List AppEvent} {s s1 : AppState},
    runEvents es s = some s1 → s1.rgb_color = s.rgb_color
  | [], _, _, h => by
    simp only [runEvents, Option.some.injEq] at h
    rw [← h]
  | e :: es, s, s1, h => by
    simp only [runEvents] at h
    cases he : runEvent e s with
    | none => rw [he] at h; exact absurd h (by simp)
    | some s2 =>
      rw [he] at h
      exact (runEvents_rgb_color h).trans (runEvent_rgb_color he)

/-- Sleep-gate/transaction coupling: from the setup state onwards, the
block count is 0 while the driver is idle and 1 while a transaction is
outstanding. -/
def blocksCoupled (s : AppState) : Prop :=
  s.sleepBlocks = if s.si.tx = TxState.IDLE then 0 else 1

/-- Every `runEvent` step preserves the sleep-gate/transaction coupling. -/
theorem runEvent_blocksCoupled {e : AppEvent} {s s1 : AppState}
    (h : runEvent e s = some s1) (hs : blocksCoupled s) : blocksCoupled s1 := by
  unfold blocksCoupled at hs ⊢
  cases e with
  | uf =>
    simp only [runEvent, scheduled_letimer0_uf_cb,
      si1133_read_white_light] at h
    split at h
    case isTrue hi =>
      injection h with h
      subst h
      simp only [hi, if_pos] at hs
      simp [hs]
    case isFalse => exact Option.noConfusion h
  | comp0 =>
    simp only [runEvent, scheduled_letimer0_comp0_cb] at h
    injection h with h
    subst h
    exact hs
  | comp1 =>
    simp only [runEvent, scheduled_letimer0_comp1_cb, si1133_force_cmd] at h
    split at h
    case isTrue hi =>
      injection h with h
      subst h
      simp only [hi] at hs
      simpa using hs
    case isFalse => exact Option.noConfusion h
  | busComplete v =>
    simp only [runEvent, si1133_bus_complete] at h
    split at h
    case isTrue hi =>
      injection h with h
      subst h
      simp only [hi] at hs
      simpa using hs
    case isFalse => exact Option.noConfusion h
  | dataReady =>
    simp only [runEvent] at h
    rw [scheduled_si1133_read_cb_eq] at h
    split at h
    case isTrue hi =>
      injection h with h
      subst h
      simp only [hi] at hs
      simp at hs
      simp [hs]
    case isFalse => exact Option.noConfusion h

/-- `runEvents` preserves the sleep-gate/transaction coupling over any
event sequence. -/
theorem runEvents_blocksCoupled : ∀ {es : List AppEvent} {s s1 : AppState},
    runEvents es s = some s1 → blocksCoupled s → blocksCoupled s1
  | [], _, _, h, hs => by
    simp only [runEvents, Option.some.injEq] at h
    rw [← h]
    exact hs
  | e :: es, s, s1, h, hs => by
    simp only [runEvents] at h
    cases he : runEvent e s with
    | none => rw [he] at h; exact absurd h (by simp)
    | some s2 =>
      rw [he] at h
      exact runEvents_blocksCoupled h (runEvent_blocksCoupled he hs)

end LightSensor

namespace LightSensor

/-- C4: for every choice of arguments, the configuration built by
`app_letimer_pwm_open` enables the underflow and compare-1 interrupts and
disables the compare-0 interrupt. -/
theorem app_letimer_pwm_open_irq_enables (period act_period : Float)
    (out0_route out1_route comp0_cb comp1_cb underflow_cb : Nat) :
    (app_letimer_pwm_open period act_period out0_route out1_route comp0_cb
        comp1_cb underflow_cb).uf_irq_enable = true ∧
    (app_letimer_pwm_open period act_period out0_route out1_route comp0_cb
        comp1_cb underflow_cb).comp1_irq_enable = true ∧
    (app_letimer_pwm_open period act_period out0_route out1_route comp0_cb
        comp1_cb underflow_cb).comp0_irq_enable = false :=
  ⟨rfl, rfl, rfl⟩

/-- C9: for every choice of arguments, the configuration built by
`app_letimer_pwm_open` disables both PWM output pins, even though the
route locations passed in are stored in the configuration. -/
theorem app_letimer_pwm_open_out_pins_disabled (period act_period : Float)
    (out0_route out1_route comp0_cb comp1_cb underflow_cb : Nat) :
    (app_letimer_pwm_open period act_period out0_route out1_route comp0_cb
        comp1_cb underflow_cb).out_pin_0_en = false ∧
    (app_letimer_pwm_open period act_period out0_route out1_route comp0_cb
        comp1_cb underflow_cb).out_pin_1_en = false ∧
    (app_letimer_pwm_open period act_period out0_route out1_route comp0_cb
        comp1_cb underflow_cb).out_pin_route0 = out0_route ∧
    (app_letimer_pwm_open period act_period out0_route out1_route comp0_cb
        comp1_cb underflow_cb).out_pin_route1 = out1_route :=
  ⟨rfl, rfl, rfl, rfl⟩

/-- C5: with the expected threshold at 50, running full sampling cycles on
the reading sequence [10, 60, 49, 50] yields indicator states
[on, off, on, off]. -/
theorem indicator_trace_concrete_scenario :
    indicatorTrace [10, 60, 49, 50] initialAppState =
      some [true, false, true, false] := by decide

/-- C1: whenever a result is ready, the data-ready callback takes the
reading and sets the blue indicator on exactly when the reading is
strictly below `EXPECTED_READ_DATA`; a reading equal to the threshold
leaves it off. -/
theorem read_cb_sets_indicator_by_threshold (s : AppState)
    (h : s.si.tx = TxState.RESULT_READY) :
    ∃ s1, scheduled_si1133_read_cb s = some s1 ∧
      s1.leds.blue = decide (s.si.result < EXPECTED_READ_DATA) ∧
      (s.si.result = EXPECTED_READ_DATA → s1.leds.blue = false) := by
  rw [scheduled_si1133_read_cb_eq, if_pos h]
  refine ⟨_, rfl, ?_, ?_⟩
  · simp [leds_enabled]
  · intro heq
    simp [leds_enabled, heq]

/-- Witness for C1: a ready state holding the reading 49 turns the blue
indicator on. -/
theorem read_cb_sets_indicator_by_threshold_witness :
    ∃ s1, scheduled_si1133_read_cb
        { initialAppState with
            si := { tx := TxState.RESULT_READY, result := 49 } } = some s1 ∧
      s1.leds.blue = decide ((49 : Nat) < EXPECTED_READ_DATA) ∧
      ((49 : Nat) = EXPECTED_READ_DATA → s1.leds.blue = false) :=
  read_cb_sets_indicator_by_threshold _ rfl

/-- C2: the underflow callback starts a new sensor transaction via the
read-trigger operation (idle state: gate incremented, transaction
started), and on every path it leaves the LED channels and `RGB_COLOR`
untouched. -/
theorem uf_cb_starts_read_no_led_writes (s : AppState) :
    (s.si.tx = TxState.IDLE →
      scheduled_letimer0_uf_cb s =
        some { s with
                sleepBlocks := s.sleepBlocks + 1,
                si := { s.si with tx := TxState.COMMAND_SENT } }) ∧
    (∀ s1, scheduled_letimer0_uf_cb s = some s1 →
      s1.leds = s.leds ∧ s1.rgb_color = s.rgb_color) := by
  constructor
  · intro h
    simp [scheduled_letimer0_uf_cb, si1133_read_white_light, h]
  · intro s1 h
    simp only [scheduled_letimer0_uf_cb, si1133_read_white_light] at h
    split at h
    · injection h with h
      subst h
      exact ⟨rfl, rfl⟩
    · exact Option.noConfusion h

/-- Witness for C2: from the setup state, the underflow callback starts
the transaction and raises the sleep gate. -/
theorem uf_cb_starts_read_no_led_writes_witness :
    scheduled_letimer0_uf_cb initialAppState =
      some { initialAppState with
              sleepBlocks := initialAppState.sleepBlocks + 1,
              si := { initialAppState.si with tx := TxState.COMMAND_SENT } } :=
  (uf_cb_starts_read_no_led_writes initialAppState).1 rfl

/-- C3: the compare-match callback issues the force command (advancing the
transaction from `COMMAND_SENT` to `AWAITING_RESULT`) and does nothing
else: LED channels, `RGB_COLOR`, the sleep gate and the latched result are
all unchanged on every path. -/
theorem comp1_cb_forces_cmd_only (s : AppState) :
    (s.si.tx = TxState.COMMAND_SENT →
      scheduled_letimer0_comp1_cb s =
        some { s with si := { s.si with tx := TxState.AWAITING_RESULT } }) ∧
    (∀ s1, scheduled_letimer0_comp1_cb s = some s1 →
      s1.leds = s.leds ∧ s1.rgb_color = s.rgb_color ∧
      s1.sleepBlocks = s.sleepBlocks ∧ s1.si.result = s.si.result) := by
  constructor
  · intro h
    simp [scheduled_letimer0_comp1_cb, si1133_force_cmd, h]
  · intro s1 h
    simp only [scheduled_letimer0_comp1_cb, si1133_force_cmd] at h
    split at h
    · injection h with h
      subst h
      exact ⟨rfl, rfl, rfl, rfl⟩
    · exact Option.noConfusion h

/-- Witness for C3: with a command outstanding, the compare-match callback
advances the transaction to awaiting the result. -/
theorem comp1_cb_forces_cmd_only_witness :
    scheduled_letimer0_comp1_cb
        { initialAppState with
            sleepBlocks := 1,
            si := { tx := TxState.COMMAND_SENT, result := 0 } } =
      some { initialAppState with
              sleepBlocks := 1,
              si := { tx := TxState.AWAITING_RESULT, result := 0 } } :=
  (comp1_cb_forces_cmd_only _).1 rfl

/-- C8: in `app_peripheral_setup`, the timer-configuration call occurs
strictly before the timer-start call, each occurs exactly once (so no
reconfiguration happens after the timer is running), the configuration
passed is the one `app_letimer_pwm_open` builds, and its `enable` field is
`false`. -/
theorem setup_configures_timer_before_start (per act : Float)
    (r0 r1 c0 c1 uf : Nat) :
    (app_peripheral_setup_trace per act r0 r1 c0 c1 uf).findIdx
        SetupCall.isPwmOpen <
      (app_peripheral_setup_trace per act r0 r1 c0 c1 uf).findIdx
        SetupCall.isStart ∧
    (app_peripheral_setup_trace per act r0 r1 c0 c1 uf).countP
        SetupCall.isPwmOpen = 1 ∧
    (app_peripheral_setup_trace per act r0 r1 c0 c1 uf).countP
        SetupCall.isStart = 1 ∧
    (app_peripheral_setup_trace per act r0 r1 c0 c1 uf).get?
        ((app_peripheral_setup_trace per act r0 r1 c0 c1 uf).findIdx
          SetupCall.isPwmOpen) =
      some (SetupCall.letimer_pwm_open
        (app_letimer_pwm_open per act r0 r1 c0 c1 uf)) ∧
    (app_letimer_pwm_open per act r0 r1 c0 c1 uf).enable = false :=
  ⟨Nat.le.refl, rfl, rfl, rfl, rfl⟩

/-- C6: across all dispatched events, only the data-ready callback writes
the actuator LED channels: every other event preserves them, and there is
a state at which the data-ready callback does change them. -/
theorem actuator_written_only_in_read_cb :
    (∀ e s s1, e ≠ AppEvent.dataReady → runEvent e s = some s1 →
      s1.leds = s.leds) ∧
    (∃ s s1, runEvent AppEvent.dataReady s = some s1 ∧ s1.leds ≠ s.leds) := by
  constructor
  · intro e s s1 hne h
    cases e with
    | uf =>
      simp only [runEvent, scheduled_letimer0_uf_cb,
        si1133_read_white_light] at h
      split at h
      · injection h with h
        subst h
        rfl
      · exact Option.noConfusion h
    | comp0 =>
      simp only [runEvent, scheduled_letimer0_comp0_cb] at h
      injection h with h
      subst h
      rfl
    | comp1 =>
      simp only [runEvent, scheduled_letimer0_comp1_cb,
        si1133_force_cmd] at h
      split at h
      · injection h with h
        subst h
        rfl
      · exact Option.noConfusion h
    | busComplete v =>
      simp only [runEvent, si1133_bus_complete] at h
      split at h
      · injection h with h
        subst h
        rfl
      · exact Option.noConfusion h
    | dataReady => exact absurd rfl hne
  · exact ⟨{ initialAppState with
              si := { tx := TxState.RESULT_READY, result := 0 } },
           _, rfl, by decide⟩

/-- Witness for C6: the underflow event leaves the LED channels of the
setup state untouched. -/
theorem actuator_written_only_in_read_cb_witness :
    AppState.leds { initialAppState with
        sleepBlocks := initialAppState.sleepBlocks + 1,
        si := { initialAppState.si with tx := TxState.COMMAND_SENT } } =
      initialAppState.leds :=
  actuator_written_only_in_read_cb.1 AppEvent.uf initialAppState _
    (by decide) rfl

/-- C10: `rgb_led_open` zeroes `RGB_COLOR`, and every subsequent sequence
of dispatched events leaves it at 0 (the colour-cycling code is commented
out, so nothing ever modifies it). -/
theorem rgb_color_zero_invariant :
    (∀ s, (rgb_led_open s).rgb_color = 0) ∧
    (∀ es s s1, runEvents es (rgb_led_open s) = some s1 →
      s1.rgb_color = 0) := by
  constructor
  · intro s
    rfl
  · intro es s s1 h
    rw [runEvents_rgb_color h]
    rfl

/-- Witness for C10: after opening the LEDs and dispatching an underflow
event, `RGB_COLOR` is still 0. -/
theorem rgb_color_zero_invariant_witness :
    AppState.rgb_color { initialAppState with
        sleepBlocks := initialAppState.sleepBlocks + 1,
        si := { initialAppState.si with tx := TxState.COMMAND_SENT } } = 0 :=
  rgb_color_zero_invariant.2 [AppEvent.uf] initialAppState _ rfl

/-- C7: the Sleep/Power Gate is incremented by the read trigger before it
returns; the only event that ever decreases it is the data-ready callback,
and that decrement coincides with the transaction returning to `IDLE`; the
count stays non-negative along every event sequence from the setup state;
and a full sampling cycle from an idle state restores the count exactly
(no leak across repeated cycles). -/
theorem sleep_gate_discipline :
    (∀ s s1, si1133_read_white_light s = some s1 →
      s1.sleepBlocks = s.sleepBlocks + 1) ∧
    (∀ e s s1, runEvent e s = some s1 → s1.sleepBlocks < s.sleepBlocks →
      e = AppEvent.dataReady ∧ s1.si.tx = TxState.IDLE ∧
        s1.sleepBlocks = s.sleepBlocks - 1) ∧
    (∀ es s1, runEvents es initialAppState = some s1 →
      0 ≤ s1.sleepBlocks) ∧
    (∀ v s, s.si.tx = TxState.IDLE → ∀ s1, runCycle v s = some s1 →
      s1.sleepBlocks = s.sleepBlocks ∧ s1.si.tx = TxState.IDLE) := by
  refine ⟨?_, ?_, ?_, ?_⟩
  · intro s s1 h
    simp only [si1133_read_white_light] at h
    split at h
    · injection h with h
      subst h
      rfl
    · exact Option.noConfusion h
  · intro e s s1 h hlt
    cases e with
    | uf =>
      simp only [runEvent, scheduled_letimer0_uf_cb,
        si1133_read_white_light] at h
      split at h
      · injection h with h
        subst h
        dsimp only at hlt
        omega
      · exact Option.noConfusion h
    | comp0 =>
      simp only [runEvent, scheduled_letimer0_comp0_cb] at h
      injection h with h
      subst h
      omega
    | comp1 =>
      simp only [runEvent, scheduled_letimer0_comp1_cb,
        si1133_force_cmd] at h
      split at h
      · injection h with h
        subst h
        dsimp only at hlt
        omega
      · exact Option.noConfusion h
    | busComplete v =>
      simp only [runEvent, si1133_bus_complete] at h
      split at h
      · injection h with h
        subst h
        dsimp only at hlt
        omega
      · exact Option.noConfusion h
    | dataReady =>
      simp only [runEvent] at h
      rw [scheduled_si1133_read_cb_eq] at h
      split at h
      · injection h with h
        subst h
        exact ⟨rfl, rfl, rfl⟩
      · exact Option.noConfusion h
  · intro es s1 h
    have hc : blocksCoupled s1 :=
      runEvents_blocksCoupled h (by unfold blocksCoupled; rfl)
    unfold blocksCoupled at hc
    split at hc <;> omega
  · intro v s hidle s1 h
    simp only [runCycle, runEvents, runEvent, scheduled_letimer0_uf_cb,
      scheduled_letimer0_comp1_cb, si1133_read_white_light,
      si1133_force_cmd, si1133_bus_complete, scheduled_si1133_read_cb_eq,
      hidle, if_pos, if_true, reduceIte] at h
    injection h with h
    subst h
    exact ⟨by dsimp only; omega, rfl⟩

/-- Witness for C7: from the setup state, the read trigger raises the
sleep-gate count from 0 to 1. -/
theorem sleep_gate_discipline_witness :
    AppState.sleepBlocks { initialAppState with
        sleepBlocks := initialAppState.sleepBlocks + 1,
        si := { initialAppState.si with tx := TxState.COMMAND_SENT } } =
      initialAppState.sleepBlocks + 1 :=
  sleep_gate_discipline.1 initialAppState _ rfl

end LightSensor
